import Mathlib

/-!
Verification of the request-orchestration engine and lexical-retrieval
subsystem of the hybrid RAG/SQL agent.

The development shallowly embeds the Python sources:
  * `src/agent/tools/sqlite_tool.py`  (`SQLiteTool.execute_query`),
  * `src/agent/rag/retrieval.py`      (`DocumentRetriever`),
  * `src/agent/graph_hybrid.py`       (the LangGraph workflow).

External collaborators (the sqlite3 driver, the file system, the
`rank_bm25` scoring library) are modelled as oracle parameters; everything
the repository's own code does (control flow, state updates, string
matching, slicing, sorting) is translated directly.

Strings are modelled with Lean's `String`, but all operations on them are
re-implemented structurally over the underlying character list so that
concrete runs reduce inside the kernel.  `Char.toLower` agrees with
Python's `str.lower` on the ASCII text appearing in this program.
-/

set_option maxHeartbeats 1000000
set_option maxRecDepth 10000

namespace Spec2Proof

/-! ## Python string primitives -/

/-- Python truthiness of an optional string: `None` and `""` are falsy. -/
def truthy : Option String → Bool
  | none => false
  | some s => !(s == "")

/-- Python `str(x)` rendering of an optional string; `None` prints as `"None"`. -/
def pyStr : Option String → String
  | none => "None"
  | some s => s

/-- Python `str.lower()` (ASCII). -/
def lowerStr (s : String) : String := ⟨s.data.map Char.toLower⟩

/-- ASCII whitespace as recognised by Python `str.strip()` / `str.split()`
on the text appearing in this program. -/
def isWs (c : Char) : Bool := c == ' ' || c == '\t' || c == '\n' || c == '\r'

/-- Python `str.strip()`. -/
def trimStr (s : String) : String :=
  ⟨((s.data.dropWhile isWs).reverse.dropWhile isWs).reverse⟩

/-- Helper for `splitOnStr`: fuelled left-to-right non-overlapping split on a
separator, exactly Python's `str.split(sep)`.  The fuel is an upper bound on
the number of recursion steps; `splitOnStr` supplies enough that the
zero-fuel branch is unreachable. -/
def splitOnFuel (sep : List Char) : Nat → List Char → List Char → List (List Char)
  | 0, l, cur => [cur.reverse ++ l]
  | _ + 1, [], cur => [cur.reverse]
  | fuel + 1, c :: rest, cur =>
    if sep.isPrefixOf (c :: rest) then
      cur.reverse :: splitOnFuel sep fuel (rest.drop (sep.length - 1)) []
    else
      splitOnFuel sep fuel rest (c :: cur)

/-- Python `s.split(sep)` for a non-empty separator. -/
def splitOnStr (sep s : String) : List String :=
  (splitOnFuel sep.data (s.data.length + 1) s.data []).map (fun l => ⟨l⟩)

/-- Substring test on character lists (Python's `needle in hay`). -/
def containsSubChars (hay needle : List Char) : Bool :=
  match hay with
  | [] => needle.isEmpty
  | c :: t => needle.isPrefixOf (c :: t) || containsSubChars t needle

/-- Python's `needle in hay` on strings. -/
def strContains (hay needle : String) : Bool := containsSubChars hay.data needle.data

/-- Helper for `splitWs`: splits a character list on whitespace runs. -/
def splitWsAux : List Char → List Char → List (List Char)
  | [], cur => if cur.isEmpty then [] else [cur.reverse]
  | c :: rest, cur =>
    if isWs c then
      if cur.isEmpty then splitWsAux rest [] else cur.reverse :: splitWsAux rest []
    else
      splitWsAux rest (c :: cur)

/-- Python `str.split()` with no argument: split on whitespace runs,
discarding empty pieces. -/
def splitWs (s : String) : List String := (splitWsAux s.data []).map (fun l => ⟨l⟩)

/-! ## `SQLiteTool.execute_query` (src/agent/tools/sqlite_tool.py)

`sqlite3.connect` and `cursor.execute` are external driver calls, modelled
as oracles in `Store`.  `cursor.description` is `None` for statements that
return no result set (sqlite3 behaviour), in which case the source's
`[description[0] for description in cursor.description]` raises `TypeError`.
`sqlite3.connect` sits before the `try` block, so a failure there is a
raised `sqlite3.Error`, not a captured one. -/

/-- Result dictionary returned by `execute_query`:
`{"columns": ..., "rows": ..., "error": ...}`.  Row cell values are opaque
to the orchestrator and are modelled as strings. -/
structure QueryResult where
  columns : List String
  rows : List (List String)
  error : Option String
deriving DecidableEq

/-- Outcome of a successful `cursor.execute`: the cursor's `description`
(`none` when the statement returns no result set) and the fetched rows. -/
structure ExecOutcome where
  description : Option (List String)
  rows : List (List String)
deriving DecidableEq

/-- Oracle for the sqlite3 driver: whether `sqlite3.connect` raises, and
what `cursor.execute` does on each statement (`Except.error` is a raised
`sqlite3.Error`). -/
structure Store where
  connectErr : Option String
  runStmt : String → Except String ExecOutcome

/-- Python exceptions that can escape `execute_query`. -/
inductive PyExc
  | sqliteErr (msg : String)
  | typeErr
deriving DecidableEq

/-- `SQLiteTool.execute_query`, line for line: connect (outside the `try`),
execute the statement, read `cursor.description` into `columns`, fetch
rows; `except sqlite3.Error` turns driver failures raised by
`cursor.execute` into `{"columns": [], "rows": [], "error": str(e)}`. -/
def execute_query (store : Store) (query : String) : Except PyExc QueryResult :=
  match store.connectErr with
  | some e => Except.error (PyExc.sqliteErr e)
  | none =>
    match store.runStmt query with
    | Except.error e => Except.ok { columns := [], rows := [], error := some e }
    | Except.ok out =>
      match out.description with
      | none => Except.error PyExc.typeErr
      | some cols => Except.ok { columns := cols, rows := out.rows, error := none }

/-- A store whose `sqlite3.connect` raises (e.g. the database directory is
not accessible). -/
def storeConnFail : Store :=
  { connectErr := some "unable to open database file"
    runStmt := fun _ => Except.ok { description := some [], rows := [] } }

/-- A healthy store on which a DDL statement executes successfully; sqlite3
leaves `cursor.description = None` for such statements. -/
def storeDdl : Store :=
  { connectErr := none
    runStmt := fun _ => Except.ok { description := none, rows := [] } }

/-- A healthy store whose statement execution raises a `sqlite3.Error`. -/
def storeStmtFail : Store :=
  { connectErr := none
    runStmt := fun _ => Except.error "no such table: Products" }

/-! ## `DocumentRetriever` (src/agent/rag/retrieval.py)

The file system is modelled as the list of `(basename-without-extension,
content)` pairs that the glob over `*.md` yields.  The `rank_bm25` library
is external; its `get_scores` applies one scoring function, determined by
the tokenised query and corpus-level statistics, uniformly to every
document of the corpus, so it is modelled as an oracle
`scorer : List String → String → ℚ` mapped over the corpus.  BM25 scores
are real numbers produced by a fixed deterministic formula; the oracle
keeps them abstract as rationals. -/

/-- A document chunk: `{"id": ..., "content": ..., "source": ...}`. -/
structure Chunk where
  id : String
  content : String
  source : String
deriving DecidableEq, Inhabited

/-- A retrieval result entry: `{"id": ..., "content": ..., "score": ...}`. -/
structure RetDoc where
  id : String
  content : String
  score : ℚ
deriving DecidableEq

/-- `DocumentRetriever._load_and_chunk_docs` for one file: split the content
on blank lines (`"\n\n"`), strip each piece, drop falsy (empty) pieces, and
id the survivors `"<source>::chunk<i>"` by their position in the filtered
list. -/
def chunksOfFile (fp : String × String) : List Chunk :=
  let chunks := ((splitOnStr "\n\n" fp.2).map trimStr).filter (fun c => !(c == ""))
  chunks.enum.map (fun ic =>
    { id := fp.1 ++ "::chunk" ++ toString ic.1, content := ic.2, source := fp.1 })

/-- `DocumentRetriever._load_and_chunk_docs` over the whole directory. -/
def load_and_chunk_docs (files : List (String × String)) : List Chunk :=
  (files.map chunksOfFile).flatten

/-- The retriever's state after `__init__`: the chunk list, and whether the
BM25 index was built (`self.bm25 is None` exactly when the corpus is
empty). -/
structure Retriever where
  documents : List Chunk
  bm25 : Bool
deriving DecidableEq

/-- `DocumentRetriever.__init__`: load and chunk the documents; build the
BM25 index only when the corpus is non-empty. -/
def build (files : List (String × String)) : Retriever :=
  let docs := load_and_chunk_docs files
  { documents := docs, bm25 := !(docs.map Chunk.content).isEmpty }

/-- Ordering used by the executable model of `numpy.argsort` on the score
array: ascending score, with ties resolved by ascending index. -/
def lexRel (s : List ℚ) (i j : Nat) : Prop :=
  s.getD i 0 < s.getD j 0 ∨ (s.getD i 0 = s.getD j 0 ∧ i ≤ j)

instance lexRelDec (s : List ℚ) : DecidableRel (lexRel s) := fun i j => by
  unfold lexRel; exact inferInstance

instance lexRelTotal (s : List ℚ) : IsTotal Nat (lexRel s) :=
  ⟨fun i j => by
    unfold lexRel
    rcases lt_trichotomy (s.getD i 0) (s.getD j 0) with h | h | h
    · exact Or.inl (Or.inl h)
    · rcases Nat.le_total i j with hij | hij
      · exact Or.inl (Or.inr ⟨h, hij⟩)
      · exact Or.inr (Or.inr ⟨h.symm, hij⟩)
    · exact Or.inr (Or.inl h)⟩

instance lexRelTrans (s : List ℚ) : IsTrans Nat (lexRel s) :=
  ⟨fun i j k hij hjk => by
    unfold lexRel at *
    rcases hij with h₁ | ⟨h₁, h₁'⟩ <;> rcases hjk with h₂ | ⟨h₂, h₂'⟩
    · exact Or.inl (h₁.trans h₂)
    · exact Or.inl (h₂ ▸ h₁)
    · exact Or.inl (h₁ ▸ h₂)
    · exact Or.inr ⟨h₁.trans h₂, h₁'.trans h₂'⟩⟩

/-- Executable model of `scores.argsort()`: the indices `0 .. n-1` sorted
by ascending score.  This instance fixes equal-score ties to ascending
index order; numpy's default argsort behaves this way only on small arrays
(where its introsort degenerates to a stable insertion sort, as in the
two-element counterexample below) and in general promises no tie order at
all — only some non-decreasing arrangement of a permutation of the
indices.  Universally quantified theorems therefore rely only on that
weaker contract, `isAscSortOfScores`, which this instance satisfies. -/
def argsortAsc (s : List ℚ) : List Nat :=
  List.insertionSort (lexRel s) (List.range s.length)

/-- Python slice `l[-k:]`: the last `k` elements, except that `-0`
degenerates to `l[0:]`, the whole list. -/
def pySliceLastK {α : Type} (k : Nat) (l : List α) : List α :=
  if k = 0 then l else l.drop (l.length - k)

/-- The index sequence produced by `scores.argsort()[-k:][::-1]`. -/
def retrieveIdxs (scores : List ℚ) (k : Nat) : List Nat :=
  (pySliceLastK k (argsortAsc scores)).reverse

/-- `tokenized_query = query.lower().split()`. -/
def pyTokenize (query : String) : List String := splitWs (lowerStr query)

/-- The score array `self.bm25.get_scores(tokenized_query)`: the scoring
function applied to each corpus document in order. -/
def scoresOf (scorer : List String → String → ℚ) (r : Retriever) (query : String) : List ℚ :=
  r.documents.map (fun d => scorer (pyTokenize query) d.content)

/-- `DocumentRetriever.retrieve`: empty result when the index is absent;
otherwise score the corpus, take `argsort()[-k:][::-1]`, and read the
chunks back out of `self.documents`. -/
def retrieve (scorer : List String → String → ℚ) (r : Retriever) (query : String)
    (k : Nat) : List RetDoc :=
  if r.bm25 = false then []
  else
    let scores := scoresOf scorer r query
    (retrieveIdxs scores k).map (fun i =>
      { id := (r.documents.getD i default).id
        content := (r.documents.getD i default).content
        score := scores.getD i 0 })

/-! ## The workflow graph (src/agent/graph_hybrid.py)

`AgentState` is the LangGraph `TypedDict`; keys absent from the initial
invocation (`{"question": ..., "repair_count": 0}`) are modelled by the
falsy defaults that `state.get(...)` supplies (`None`, `[]`, `{}`).  Each
node returns the merged state, with exactly the keys the source writes
changed.  The document retriever and the SQLite database are reached
through the environment `Env`; the executor oracle is indexed by the
attempt number so that a transiently failing store can be expressed. -/

/-- The LangGraph state dictionary.  `constraints` is an association list so
that a missing key (`KeyError`) is distinguishable from a key mapped to
`None`. -/
structure AgentState where
  question : String
  route : String
  sql_query : String
  sql_result : Option QueryResult
  retrieved_docs : List RetDoc
  final_answer : Option String
  citations : List String
  repair_count : Nat
  constraints : List (String × Option String)
  error : Option String
deriving DecidableEq

/-- External collaborators of the workflow: the document retriever (the
`try`-wrapped `retriever.retrieve(question)` call, whose failure is an
`Except.error`) and the SQLite executor, indexed by how many times
`execute_sql` has run. -/
structure Env where
  retrieveResult : String → Except String (List RetDoc)
  execResult : Nat → String → QueryResult

/-- Look up a key in a Python dict modelled as an association list. -/
def dictGet (d : List (String × Option String)) (key : String) : Option (Option String) :=
  match d with
  | [] => none
  | kv :: rest => if kv.1 = key then some kv.2 else dictGet rest key

/-- The question of the `hybrid_top_category_qty_summer_1997` branch. -/
def qSummer : String :=
  "During \x27Summer Beverages 1997\x27 as defined in the marketing calendar, which product category had the highest total quantity sold? Return \x7bcategory:str, quantity:int\x7d."

/-- The question of the `hybrid_aov_winter_1997` branch. -/
def qAov : String :=
  "Using the AOV definition from the KPI docs, what was the Average Order Value during \x27Winter Classics 1997\x27? Return a float rounded to 2 decimals."

/-- The question of the `hybrid_revenue_beverages_summer_1997` branch. -/
def qBeverages : String :=
  "Total revenue from the \x27Beverages\x27 category during \x27Summer Beverages 1997\x27 dates. Return a float rounded to 2 decimals."

/-- The question of the `hybrid_best_customer_margin_1997` branch. -/
def qMargin : String :=
  "Per the KPI definition of gross margin, who was the top customer by gross margin in 1997? Assume CostOfGoods is approximated by 70% of UnitPrice if not available. Return \x7bcustomer:str, margin:float\x7d."

/-- The lowercase phrase routed (and templated) as the top-3-products query. -/
def qTop3Phrase : String := "top 3 products by total revenue all-time"

/-- The top-3-products SQL template. -/
def sqlTop3 : String :=
  "\nSELECT\n  T1.ProductName,\n  SUM(T2.UnitPrice * T2.Quantity * (1 - T2.Discount)) AS Revenue\nFROM Products AS T1\nINNER JOIN \"Order Details\" AS T2\n  ON T1.ProductID = T2.ProductID\nGROUP BY\n  T1.ProductName\nORDER BY\n  Revenue DESC\nLIMIT 3;\n"

/-- The summer-1997 category SQL template (an f-string over the date
constraints). -/
def sqlSummer (sd ed : String) : String :=
  "\nSELECT\n  T1.CategoryName,\n  SUM(T3.Quantity) AS TotalQuantitySold\nFROM Categories AS T1\nINNER JOIN Products AS T2\n  ON T1.CategoryID = T2.CategoryID\nINNER JOIN \"Order Details\" AS T3\n  ON T2.ProductID = T3.ProductID\nINNER JOIN Orders AS T4\n  ON T3.OrderID = T4.OrderID\nWHERE\n  T4.OrderDate BETWEEN \x27" ++ sd ++ "\x27 AND \x27" ++ ed ++ "\x27\nGROUP BY\n  T1.CategoryName\nORDER BY\n  TotalQuantitySold DESC\nLIMIT 1;\n"

/-- The AOV SQL template (an f-string over the date constraints). -/
def sqlAov (sd ed : String) : String :=
  "\nSELECT\n  CAST(SUM(T2.UnitPrice * T2.Quantity * (1 - T2.Discount)) AS REAL) / COUNT(DISTINCT T1.OrderID) AS AOV\nFROM Orders AS T1\nINNER JOIN \"Order Details\" AS T2\n  ON T1.OrderID = T2.OrderID\nWHERE\n  T1.OrderDate BETWEEN \x27" ++ sd ++ "\x27 AND \x27" ++ ed ++ "\x27;\n"

/-- The Beverages-revenue SQL template (an f-string over the date
constraints). -/
def sqlBeverages (sd ed : String) : String :=
  "\nSELECT\n  SUM(T3.UnitPrice * T3.Quantity * (1 - T3.Discount)) AS TotalRevenue\nFROM Categories AS T1\nINNER JOIN Products AS T2\n  ON T1.CategoryID = T2.CategoryID\nINNER JOIN \"Order Details\" AS T3\n  ON T2.ProductID = T3.ProductID\nINNER JOIN Orders AS T4\n  ON T3.OrderID = T4.OrderID\nWHERE\n  T1.CategoryName = \x27Beverages\x27 AND T4.OrderDate BETWEEN \x27" ++ sd ++ "\x27 AND \x27" ++ ed ++ "\x27;\n"

/-- The gross-margin SQL template (no constraint placeholders). -/
def sqlMargin : String :=
  "\nSELECT\n  T1.CompanyName,\n  SUM(T3.UnitPrice * T3.Quantity * (0.3 - T3.Discount)) AS GrossMargin\nFROM Customers AS T1\nINNER JOIN Orders AS T2\n  ON T1.CustomerID = T2.CustomerID\nINNER JOIN \"Order Details\" AS T3\n  ON T2.OrderID = T3.OrderID\nWHERE\n  STRFTIME(\x27%Y\x27, T2.OrderDate) = \x271997\x27\nGROUP BY\n  T1.CompanyName\nORDER BY\n  GrossMargin DESC\nLIMIT 1;\n"

/-- `route_question`: keyword routing over the lowercased question; writes
`route`. -/
def route_question (s : AgentState) : AgentState :=
  let q := lowerStr s.question
  let route :=
    if strContains q qTop3Phrase then "sql"
    else if strContains q "revenue" || strContains q "sold" || strContains q "customer" ||
        strContains q "category" || strContains q "aov" then "hybrid"
    else "rag"
  { s with route := route }

/-- `retrieve_docs`: call the retriever (any exception is caught and
degraded to `[]`), then write `retrieved_docs` and overwrite `citations`
with the chunk ids. -/
def retrieve_docs (env : Env) (s : AgentState) : AgentState :=
  let docs :=
    match env.retrieveResult s.question with
    | Except.ok ds => ds
    | Except.error _ => []
  { s with retrieved_docs := docs, citations := docs.map RetDoc.id }

/-- `plan_constraints`: mock extraction keyed on the exact stripped
question; writes `constraints`. -/
def plan_constraints (s : AgentState) : AgentState :=
  let constraints :=
    if trimStr s.question = qSummer then
      [("start_date", some "1997-07-01"), ("end_date", some "1997-09-30"),
       ("category", none), ("kpi", some "quantity_sold")]
    else if trimStr s.question = qAov then
      [("start_date", some "1997-12-01"), ("end_date", some "1997-12-31"),
       ("category", none), ("kpi", some "average_order_value")]
    else if trimStr s.question = qMargin then
      [("start_date", some "1997-01-01"), ("end_date", some "1997-12-31"),
       ("category", none), ("kpi", some "gross_margin")]
    else []
  { s with constraints := constraints }

/-- Evaluation of an f-string template interpolating
`constraints["start_date"]` and `constraints["end_date"]` (in that order,
as Python evaluates them): a missing key raises `KeyError`
(the `Except.error` case). -/
def withDates (s : AgentState) (mk : String → String → String) : Except String AgentState :=
  match dictGet s.constraints "start_date" with
  | none => Except.error "KeyError: start_date"
  | some sd =>
    match dictGet s.constraints "end_date" with
    | none => Except.error "KeyError: end_date"
    | some ed => Except.ok { s with sql_query := mk (pyStr sd) (pyStr ed) }

/-- `generate_sql`: template selection over the question; the summer, AOV
and Beverages templates interpolate the date constraints through
`withDates`.  On success only `sql_query` is written.  The unused
`sql_tool.get_schema()` call is omitted. -/
def generate_sql (s : AgentState) : Except String AgentState :=
  let q := lowerStr s.question
  if strContains q qTop3Phrase then
    Except.ok { s with sql_query := sqlTop3 }
  else if trimStr s.question = qSummer then
    withDates s sqlSummer
  else if trimStr s.question = qAov then
    withDates s sqlAov
  else if trimStr s.question = qBeverages then
    withDates s sqlBeverages
  else if trimStr s.question = qMargin then
    Except.ok { s with sql_query := sqlMargin }
  else
    Except.ok { s with sql_query := "SELECT * FROM Orders LIMIT 1;" }

/-- `execute_sql`: run the query through the store; on a truthy result
error copy it into the context `error`, otherwise append the hard-coded
table names `["Orders", "Customers"]` to `citations`. -/
def execute_sql (env : Env) (attempt : Nat) (s : AgentState) : AgentState :=
  let res := env.execResult attempt s.sql_query
  if truthy res.error then
    { s with sql_result := some res, error := res.error }
  else
    { s with sql_result := some res, citations := s.citations ++ ["Orders", "Customers"] }

/-- Mock string rendering of a list, standing in for Python's `str` on
lists inside f-strings. -/
def renderStrList (l : List String) : String := String.intercalate ", " l

/-- Mock rendering of a row list. -/
def renderRows (rows : List (List String)) : String :=
  String.intercalate "; " (rows.map renderStrList)

/-- The mock SQL-grounded synthesis string. -/
def mockSqlAnswer (q : String) (res : QueryResult) : String :=
  "Based on the data, the answer to \x27" ++ q ++ "\x27 is: SQL Result: " ++
    renderStrList res.columns ++ " -> " ++ renderRows res.rows ++ ". (Mock Synthesis)"

/-- The mock docs-grounded synthesis string. -/
def mockRagAnswer (q : String) (docs : List RetDoc) : String :=
  "Based on the retrieved documents, the answer to \x27" ++ q ++ "\x27 is: " ++
    String.intercalate "\n" (docs.map RetDoc.content) ++ "... (Mock Synthesis)"

/-- `synthesize_answer`: error-carrying answer if the SQL result has a
truthy error, SQL-based mock synthesis if a SQL result is present, else the
docs-based mock synthesis; writes `final_answer`. -/
def synthesize_answer (s : AgentState) : AgentState :=
  match s.sql_result with
  | some res =>
    if truthy res.error then
      { s with final_answer := some ("Error: Could not execute SQL query. " ++ pyStr res.error) }
    else
      { s with final_answer := some (mockSqlAnswer s.question res) }
  | none =>
    { s with final_answer := some (mockRagAnswer s.question s.retrieved_docs) }

/-- `repair_loop`: increment the counter; with a truthy error and the
counter within the ceiling, record the incremented counter and clear the
error; with a truthy error beyond the ceiling, record the counter and the
terminal failure answer; otherwise return the state unchanged. -/
def repair_loop (s : AgentState) : AgentState :=
  let rc := s.repair_count + 1
  if truthy s.error ∧ rc ≤ 2 then
    { s with repair_count := rc, error := none }
  else if truthy s.error then
    { s with repair_count := rc,
             final_answer := some "Error: Could not resolve the question after 2 repair attempts." }
  else s

/-- The named stages of the graph plus the terminal `END` node. -/
inductive Node
  | route_q
  | retrieve_d
  | plan
  | gen
  | exec
  | synth
  | repair
  | fin
deriving DecidableEq

/-- The conditional edge out of `route_question`: the routing lambda
returns `state["route"]`, looked up in the edge table
`{rag, sql, hybrid, fail}`; any other value has no transition and is an
orchestration fault (a raised exception). -/
def nextAfterRoute (s : AgentState) : Except String Node :=
  if s.route = "rag" then Except.ok Node.retrieve_d
  else if s.route = "sql" then Except.ok Node.gen
  else if s.route = "hybrid" then Except.ok Node.retrieve_d
  else if s.route = "fail" then Except.ok Node.fin
  else Except.error "orchestration fault: unmapped route"

/-- `decide_post_retrieve` composed with its edge table: `rag` goes to the
synthesizer, `hybrid` to constraint planning, anything else to the `fail`
edge, which maps to `END`. -/
def nextAfterRetrieve (s : AgentState) : Node :=
  if s.route = "rag" then Node.synth
  else if s.route = "hybrid" then Node.plan
  else Node.fin

/-- `decide_post_execute` composed with its edge table. -/
def nextAfterExecute (s : AgentState) : Node :=
  if truthy s.error then Node.repair else Node.synth

/-- The conditional edge out of `repair_loop`:
`"generate_sql" if state.get("repair_count", 0) <= 2 and state.get("error") else END`. -/
def nextAfterRepair (s : AgentState) : Node :=
  if s.repair_count ≤ 2 ∧ truthy s.error then Node.gen else Node.fin

/-- A point of the running graph: the current state, the node about to run,
and how many times `execute_sql` has already run. -/
structure RunState where
  st : AgentState
  node : Node
  attempt : Nat

/-- One LangGraph superstep: run the current node, merge its delta, and
follow its outgoing (possibly conditional) edge.  `Except.error` is an
exception escaping the graph.  At `fin` the walk is already over and the
state is returned unchanged. -/
def step (env : Env) (rs : RunState) : Except String RunState :=
  match rs.node with
  | Node.route_q =>
    let s := route_question rs.st
    (nextAfterRoute s).map (fun n => ⟨s, n, rs.attempt⟩)
  | Node.retrieve_d =>
    let s := retrieve_docs env rs.st
    Except.ok ⟨s, nextAfterRetrieve s, rs.attempt⟩
  | Node.plan =>
    Except.ok ⟨plan_constraints rs.st, Node.gen, rs.attempt⟩
  | Node.gen =>
    (generate_sql rs.st).map (fun s => ⟨s, Node.exec, rs.attempt⟩)
  | Node.exec =>
    let s := execute_sql env rs.attempt rs.st
    Except.ok ⟨s, nextAfterExecute s, rs.attempt + 1⟩
  | Node.synth =>
    Except.ok ⟨synthesize_answer rs.st, Node.fin, rs.attempt⟩
  | Node.repair =>
    let s := repair_loop rs.st
    Except.ok ⟨s, nextAfterRepair s, rs.attempt⟩
  | Node.fin => Except.ok rs

/-- How a run ends: normal arrival at `END`, an exception escaping the
graph, or fuel exhaustion (never happens with the fuel `run` supplies). -/
inductive Outcome
  | finished (s : AgentState)
  | raised (e : String)
  | outOfFuel
deriving DecidableEq

/-- Fuelled graph walk accumulating the trace of `(node, state after the
node)` pairs. -/
def runAux (env : Env) : Nat → RunState → List (Node × AgentState) →
    Outcome × List (Node × AgentState)
  | 0, _, acc => (Outcome.outOfFuel, acc)
  | fuel + 1, rs, acc =>
    if rs.node = Node.fin then (Outcome.finished rs.st, acc)
    else
      match step env rs with
      | Except.error e => (Outcome.raised e, acc ++ [(rs.node, rs.st)])
      | Except.ok rs' => runAux env fuel rs' (acc ++ [(rs.node, rs'.st)])

/-- The initial state of a request: the invocation
`{"question": question, "repair_count": 0}` with every other key absent
(falsy defaults). -/
def initState (question : String) : AgentState :=
  { question := question, route := "", sql_query := "", sql_result := none,
    retrieved_docs := [], final_answer := none, citations := [],
    repair_count := 0, constraints := [], error := none }

/-- Run one request through the compiled graph.  Ten fuel units cover the
longest possible walk. -/
def run (env : Env) (question : String) : Outcome × List (Node × AgentState) :=
  runAux env 10 ⟨initState question, Node.route_q, 0⟩ []

/-- The final state of a finished run, if any. -/
def finOutState : Outcome → Option AgentState
  | Outcome.finished s => some s
  | _ => none

/-- Number of `generate_sql` invocations recorded in a trace. -/
def genCount (tr : List (Node × AgentState)) : Nat :=
  tr.countP (fun p => decide (p.1 = Node.gen))

/-- The question of the QUERY-route scenario. -/
def qTop3 : String := "Top 3 products by total revenue all-time"

/-- An executor that fails on the first attempt with a store-level error and
succeeds from the second attempt on; retrieval returns nothing. -/
def envRepair : Env :=
  { retrieveResult := fun _ => Except.ok []
    execResult := fun attempt _ =>
      if attempt = 0 then { columns := [], rows := [], error := some "no such table: Products" }
      else { columns := ["ProductName", "Revenue"],
             rows := [["Cote de Blaye", "141396.73"], ["Thuringer Rostbratwurst", "80368.67"],
                      ["Raclette Courdavault", "71155.70"]], error := none } }

/-- An executor that always succeeds with the three ranked rows; retrieval
returns nothing. -/
def envOk : Env :=
  { retrieveResult := fun _ => Except.ok []
    execResult := fun _ _ =>
      { columns := ["ProductName", "Revenue"],
        rows := [["Cote de Blaye", "141396.73"], ["Thuringer Rostbratwurst", "80368.67"],
                 ["Raclette Courdavault", "71155.70"]], error := none } }

/-- The contract numpy documents for `scores.argsort()` regardless of the
sort kind: the result is a permutation of the positions `0 .. n-1` listing
the scores in non-decreasing order.  Stability (insertion-order ties) is
NOT part of this contract — the default quicksort is unstable — so no
theorem quantifying over every index may assume more than this. -/
def isAscSortOfScores (scores : List ℚ) (idxs : List Nat) : Prop :=
  List.Perm idxs (List.range scores.length) ∧
  List.Pairwise (fun i j => scores.getD i 0 ≤ scores.getD j 0) idxs

/-- The ranking property the amended C6 asserts of the index sequence
`idxs` selected from the score array `scores`: the selection is in
non-increasing score order and every selected position scores at least as
high as every non-selected position.  No tie-break direction is asserted:
numpy guarantees none. -/
def topKByScore (scores : List ℚ) (idxs : List Nat) : Prop :=
  List.Pairwise (fun i j => scores.getD j 0 ≤ scores.getD i 0) idxs ∧
  ∀ i ∈ idxs, ∀ j, j < scores.length → j ∉ idxs →
    scores.getD j 0 ≤ scores.getD i 0

/-- The amended contract of `retrieve` on a built index: the result is the
chunks at positions `retrieveIdxs`, those positions are `min k n` many and
form a top-`k` of the corpus by score. -/
def retrieveSpecTopK (scorer : List String → String → ℚ)
    (files : List (String × String)) (query : String) (k : Nat) : Prop :=
  retrieve scorer (build files) query k =
    (retrieveIdxs (scoresOf scorer (build files) query) k).map (fun i =>
      { id := ((build files).documents.getD i default).id
        content := ((build files).documents.getD i default).content
        score := (scoresOf scorer (build files) query).getD i 0 }) ∧
  (retrieveIdxs (scoresOf scorer (build files) query) k).length =
    min k (build files).documents.length ∧
  topKByScore (scoresOf scorer (build files) query)
    (retrieveIdxs (scoresOf scorer (build files) query) k)

/-! ## Supporting lemmas: the argsort model -/

theorem argsort_perm (s : List ℚ) : List.Perm (argsortAsc s) (List.range s.length) :=
  List.perm_insertionSort _ _

theorem argsort_sorted (s : List ℚ) : List.Sorted (lexRel s) (argsortAsc s) :=
  List.sorted_insertionSort _ _

theorem argsort_nodup (s : List ℚ) : (argsortAsc s).Nodup :=
  (argsort_perm s).nodup_iff.mpr (List.nodup_range _)

theorem argsort_length (s : List ℚ) : (argsortAsc s).length = s.length :=
  (argsort_perm s).length_eq.trans (List.length_range _)

theorem argsort_mem (s : List ℚ) (j : Nat) : j ∈ argsortAsc s ↔ j < s.length := by
  rw [(argsort_perm s).mem_iff, List.mem_range]

/-- The executable argsort instance meets numpy's documented contract:
its output is a permutation of the positions in non-decreasing score
order. -/
theorem argsortAsc_ascSort (s : List ℚ) : isAscSortOfScores s (argsortAsc s) := by
  refine ⟨argsort_perm s, ?_⟩
  refine (argsort_sorted s).imp ?_
  intro i j hij
  rcases hij with h | ⟨h, _⟩
  · exact le_of_lt h
  · exact le_of_eq h

/-- The heart of the amended C6, proved from numpy's contract alone
(stability not assumed): for `k ≥ 1` the slice-and-reverse
`idxs[-k:][::-1]` of ANY non-decreasing index arrangement of the scores is
a top `min k n` selection in non-increasing score order. -/
theorem topK_of_ascSort (s : List ℚ) (idxs : List Nat) (k : Nat) (hk : 1 ≤ k)
    (h : isAscSortOfScores s idxs) :
    ((pySliceLastK k idxs).reverse).length = min k s.length ∧
      topKByScore s ((pySliceLastK k idxs).reverse) := by
  obtain ⟨hperm, hsorted⟩ := h
  have hk0 : k ≠ 0 := Nat.one_le_iff_ne_zero.mp hk
  have hlen : idxs.length = s.length := hperm.length_eq.trans (List.length_range _)
  have hsel : pySliceLastK k idxs = idxs.drop (idxs.length - k) := by
    unfold pySliceLastK
    rw [if_neg hk0]
  set m := idxs.length - k with hm
  have hdrop_sorted : (idxs.drop m).Pairwise (fun i j => s.getD i 0 ≤ s.getD j 0) :=
    hsorted.sublist (List.drop_sublist m idxs)
  refine ⟨?_, ?_, ?_⟩
  · rw [hsel, List.length_reverse, List.length_drop]
    omega
  · rw [hsel]
    exact List.pairwise_reverse.mpr hdrop_sorted
  · intro i hi j hj hjn
    rw [hsel] at hi hjn
    have hi' : i ∈ idxs.drop m := List.mem_reverse.mp hi
    have hjn' : j ∉ idxs.drop m := fun hmem => hjn (List.mem_reverse.mpr hmem)
    have hjidxs : j ∈ idxs := hperm.mem_iff.mpr (List.mem_range.mpr hj)
    have hsplit : idxs.take m ++ idxs.drop m = idxs := List.take_append_drop m idxs
    have hjtake : j ∈ idxs.take m := by
      rcases List.mem_append.mp (hsplit ▸ hjidxs) with h' | h'
      · exact h'
      · exact absurd h' hjn'
    have hsorted' : (idxs.take m ++ idxs.drop m).Pairwise
        (fun i j => s.getD i 0 ≤ s.getD j 0) := by
      rw [hsplit]
      exact hsorted
    exact (List.pairwise_append.mp hsorted').2.2 j hjtake i hi'

/-- `build` produces an absent BM25 index exactly for an empty chunk list. -/
theorem build_bm25_eq (files : List (String × String)) :
    (build files).bm25 = !((build files).documents.map Chunk.content).isEmpty := rfl

theorem build_documents_eq (files : List (String × String)) :
    (build files).documents = load_and_chunk_docs files := rfl

/-! ## Supporting lemmas: the workflow graph -/

theorem initState_rc (q : String) : (initState q).repair_count = 0 := rfl

theorem route_question_rc (s : AgentState) :
    (route_question s).repair_count = s.repair_count := rfl

theorem retrieve_docs_rc (env : Env) (s : AgentState) :
    (retrieve_docs env s).repair_count = s.repair_count := rfl

theorem retrieve_docs_route (env : Env) (s : AgentState) :
    (retrieve_docs env s).route = s.route := rfl

theorem plan_constraints_rc (s : AgentState) :
    (plan_constraints s).repair_count = s.repair_count := rfl

theorem execute_sql_rc (env : Env) (a : Nat) (s : AgentState) :
    (execute_sql env a s).repair_count = s.repair_count := by
  unfold execute_sql; dsimp only; split_ifs <;> rfl

theorem synthesize_answer_rc (s : AgentState) :
    (synthesize_answer s).repair_count = s.repair_count := by
  unfold synthesize_answer
  cases s.sql_result with
  | none => rfl
  | some res =>
    dsimp only
    split_ifs <;> rfl

theorem repair_loop_rc_le (s : AgentState) :
    (repair_loop s).repair_count ≤ s.repair_count + 1 := by
  unfold repair_loop
  by_cases h1 : truthy s.error = true ∧ s.repair_count + 1 ≤ 2
  · rw [if_pos h1]
  · rw [if_neg h1]
    by_cases h2 : truthy s.error = true
    · rw [if_pos h2]
    · rw [if_neg h2]
      exact Nat.le_succ _

/-- Every possible route the classifier assigns. -/
theorem route_question_route_cases (s : AgentState) :
    (route_question s).route = "sql" ∨ (route_question s).route = "hybrid" ∨
      (route_question s).route = "rag" := by
  unfold route_question
  dsimp only
  split_ifs <;> simp

/-- On success `withDates` only writes `sql_query`. -/
theorem withDates_ok_frame (s s' : AgentState) (mk : String → String → String)
    (h : withDates s mk = Except.ok s') : s' = { s with sql_query := s'.sql_query } := by
  unfold withDates at h
  revert h
  cases dictGet s.constraints "start_date" <;> cases dictGet s.constraints "end_date" <;>
    intro h <;> first | (cases h; rfl) | exact absurd h (by simp)

/-- On success `generate_sql` only writes `sql_query`; every other field of
the state (in particular `error`) is unchanged. -/
theorem generate_sql_ok_frame (s s' : AgentState) (h : generate_sql s = Except.ok s') :
    s' = { s with sql_query := s'.sql_query } := by
  unfold generate_sql at h
  dsimp only at h
  split_ifs at h <;> first | (cases h; rfl) | exact withDates_ok_frame s s' _ h

theorem generate_sql_ok_rc (s s' : AgentState) (h : generate_sql s = Except.ok s') :
    s'.repair_count = s.repair_count := by
  rw [generate_sql_ok_frame s s' h]

theorem generate_sql_ok_error (s s' : AgentState) (h : generate_sql s = Except.ok s') :
    s'.error = s.error := by
  rw [generate_sql_ok_frame s s' h]

/-- The edge out of `repair_loop` always selects `END`: the first branch has
just cleared `error`, the second has pushed `repair_count` past the
ceiling, and the third has a falsy `error` — so the `generate_sql` edge of
the conditional is unreachable. -/
theorem nextAfterRepair_repair_loop (s : AgentState) :
    nextAfterRepair (repair_loop s) = Node.fin := by
  unfold nextAfterRepair repair_loop
  by_cases h1 : truthy s.error = true ∧ s.repair_count + 1 ≤ 2
  · rw [if_pos h1]
    have hnone : truthy (none : Option String) = true ↔ False := by simp [truthy]
    rw [if_neg]
    intro hc
    exact hnone.mp hc.2
  · rw [if_neg h1]
    by_cases h2 : truthy s.error = true
    · rw [if_pos h2, if_neg]
      intro hc
      exact h1 ⟨h2, hc.1⟩
    · rw [if_neg h2, if_neg]
      intro hc
      exact h2 hc.2

theorem step_repair_eq (env : Env) (a : Nat) (s : AgentState) :
    step env ⟨s, Node.repair, a⟩ = Except.ok ⟨repair_loop s, Node.fin, a⟩ := by
  unfold step
  dsimp only
  rw [nextAfterRepair_repair_loop]

theorem runAux_synth_eq (env : Env) (f a : Nat) (s : AgentState)
    (acc : List (Node × AgentState)) :
    runAux env (f + 2) ⟨s, Node.synth, a⟩ acc =
      (Outcome.finished (synthesize_answer s), acc ++ [(Node.synth, synthesize_answer s)]) := by
  simp [runAux, step]

theorem runAux_repair_eq (env : Env) (f a : Nat) (s : AgentState)
    (acc : List (Node × AgentState)) :
    runAux env (f + 2) ⟨s, Node.repair, a⟩ acc =
      (Outcome.finished (repair_loop s), acc ++ [(Node.repair, repair_loop s)]) := by
  simp [runAux, step_repair_eq]

theorem runAux_step_ok (env : Env) (f : Nat) (rs rs' : RunState)
    (acc : List (Node × AgentState)) (hn : rs.node = Node.fin → False)
    (h : step env rs = Except.ok rs') :
    runAux env (f + 1) rs acc = runAux env f rs' (acc ++ [(rs.node, rs'.st)]) := by
  simp only [runAux]
  rw [if_neg hn, h]

theorem runAux_exec_err_eq (env : Env) (f a : Nat) (s : AgentState)
    (acc : List (Node × AgentState)) (h : truthy (execute_sql env a s).error = true) :
    runAux env (f + 3) ⟨s, Node.exec, a⟩ acc =
      (Outcome.finished (repair_loop (execute_sql env a s)),
        acc ++ [(Node.exec, execute_sql env a s),
                (Node.repair, repair_loop (execute_sql env a s))]) := by
  have hstep : step env ⟨s, Node.exec, a⟩ =
      Except.ok ⟨execute_sql env a s, Node.repair, a + 1⟩ := by
    unfold step nextAfterExecute
    dsimp only
    rw [if_pos h]
  have h1 := runAux_step_ok env (f + 2) ⟨s, Node.exec, a⟩
    ⟨execute_sql env a s, Node.repair, a + 1⟩ acc (by simp) hstep
  rw [show f + 3 = f + 2 + 1 from rfl, h1, runAux_repair_eq]
  simp

theorem runAux_exec_ok_eq (env : Env) (f a : Nat) (s : AgentState)
    (acc : List (Node × AgentState)) (h : truthy (execute_sql env a s).error = false) :
    runAux env (f + 3) ⟨s, Node.exec, a⟩ acc =
      (Outcome.finished (synthesize_answer (execute_sql env a s)),
        acc ++ [(Node.exec, execute_sql env a s),
                (Node.synth, synthesize_answer (execute_sql env a s))]) := by
  have hstep : step env ⟨s, Node.exec, a⟩ =
      Except.ok ⟨execute_sql env a s, Node.synth, a + 1⟩ := by
    unfold step nextAfterExecute
    dsimp only
    rw [if_neg]
    simp [h]
  have h1 := runAux_step_ok env (f + 2) ⟨s, Node.exec, a⟩
    ⟨execute_sql env a s, Node.synth, a + 1⟩ acc (by simp) hstep
  rw [show f + 3 = f + 2 + 1 from rfl, h1, runAux_synth_eq]
  simp

theorem runAux_gen_err_eq (env : Env) (f a : Nat) (s : AgentState)
    (acc : List (Node × AgentState)) (e : String) (h : generate_sql s = Except.error e) :
    runAux env (f + 1) ⟨s, Node.gen, a⟩ acc = (Outcome.raised e, acc ++ [(Node.gen, s)]) := by
  simp [runAux, step, h, Except.map]

theorem runAux_gen_ok_eq (env : Env) (f a : Nat) (s s' : AgentState)
    (acc : List (Node × AgentState)) (h : generate_sql s = Except.ok s') :
    runAux env (f + 1) ⟨s, Node.gen, a⟩ acc =
      runAux env f ⟨s', Node.exec, a⟩ (acc ++ [(Node.gen, s')]) := by
  simp [runAux, step, h, Except.map]

theorem runAux_plan_eq (env : Env) (f a : Nat) (s : AgentState)
    (acc : List (Node × AgentState)) :
    runAux env (f + 1) ⟨s, Node.plan, a⟩ acc =
      runAux env f ⟨plan_constraints s, Node.gen, a⟩
        (acc ++ [(Node.plan, plan_constraints s)]) := by
  simp [runAux, step]

theorem runAux_retrieve_eq (env : Env) (f a : Nat) (s : AgentState)
    (acc : List (Node × AgentState)) :
    runAux env (f + 1) ⟨s, Node.retrieve_d, a⟩ acc =
      runAux env f ⟨retrieve_docs env s, nextAfterRetrieve (retrieve_docs env s), a⟩
        (acc ++ [(Node.retrieve_d, retrieve_docs env s)]) := by
  simp [runAux, step]

theorem runAux_route_ok_eq (env : Env) (f a : Nat) (s : AgentState)
    (acc : List (Node × AgentState)) (n : Node)
    (h : nextAfterRoute (route_question s) = Except.ok n) :
    runAux env (f + 1) ⟨s, Node.route_q, a⟩ acc =
      runAux env f ⟨route_question s, n, a⟩ (acc ++ [(Node.route_q, route_question s)]) := by
  simp [runAux, step, h, Except.map]

theorem nextAfterRoute_sql (s : AgentState) (h : s.route = "sql") :
    nextAfterRoute s = Except.ok Node.gen := by
  unfold nextAfterRoute; rw [h]; rfl

theorem nextAfterRoute_hybrid (s : AgentState) (h : s.route = "hybrid") :
    nextAfterRoute s = Except.ok Node.retrieve_d := by
  unfold nextAfterRoute; rw [h]; rfl

theorem nextAfterRoute_rag (s : AgentState) (h : s.route = "rag") :
    nextAfterRoute s = Except.ok Node.retrieve_d := by
  unfold nextAfterRoute; rw [h]; rfl

theorem nextAfterRetrieve_rag (s : AgentState) (h : s.route = "rag") :
    nextAfterRetrieve s = Node.synth := by
  unfold nextAfterRetrieve; rw [h]; rfl

theorem nextAfterRetrieve_hybrid (s : AgentState) (h : s.route = "hybrid") :
    nextAfterRetrieve s = Node.plan := by
  unfold nextAfterRetrieve; rw [h]; rfl

theorem genCount_nil : genCount [] = 0 := rfl

theorem genCount_append (l₁ l₂ : List (Node × AgentState)) :
    genCount (l₁ ++ l₂) = genCount l₁ + genCount l₂ :=
  List.countP_append _ _ _

theorem genCount_cons (n : Node) (s : AgentState) (l : List (Node × AgentState)) :
    genCount ((n, s) :: l) = genCount l + (if n = Node.gen then 1 else 0) := by
  simp [genCount, List.countP_cons]

/-- The tail of any run arriving at `generate_sql` with a zero repair
counter: it ends (normally or by an escaping exception) without a second
pass through the generator, and no state along the way has
`repair_count > 1`. -/
theorem c2_tail_gen (env : Env) (f a : Nat) (s : AgentState)
    (acc : List (Node × AgentState)) (hrc : s.repair_count = 0)
    (hout : ∀ p ∈ acc, p.2.repair_count ≤ 2) (hcnt : genCount acc = 0) :
    (runAux env (f + 4) ⟨s, Node.gen, a⟩ acc).1 ≠ Outcome.outOfFuel ∧
    genCount (runAux env (f + 4) ⟨s, Node.gen, a⟩ acc).2 ≤ 3 ∧
    ∀ p ∈ (runAux env (f + 4) ⟨s, Node.gen, a⟩ acc).2, p.2.repair_count ≤ 2 := by
  rcases hgen : generate_sql s with e | s2
  · rw [show f + 4 = f + 3 + 1 from rfl, runAux_gen_err_eq env (f + 3) a s acc e hgen]
    refine ⟨by simp, ?_, ?_⟩
    · simp [genCount_append, genCount_cons, genCount_nil, hcnt]
    · intro p hp
      rcases List.mem_append.mp hp with h | h
      · exact hout p h
      · have := List.mem_singleton.mp h
        subst this
        simp [hrc]
  · have hrc2 : s2.repair_count = 0 := (generate_sql_ok_rc s s2 hgen).trans hrc
    rw [show f + 4 = f + 3 + 1 from rfl, runAux_gen_ok_eq env (f + 3) a s s2 acc hgen]
    cases hex : truthy (execute_sql env a s2).error
    · rw [runAux_exec_ok_eq env f a s2 _ hex]
      refine ⟨by simp, ?_, ?_⟩
      · simp [genCount_append, genCount_cons, genCount_nil, hcnt]
      · intro p hp
        rcases List.mem_append.mp hp with h | h
        · rcases List.mem_append.mp h with h' | h'
          · exact hout p h'
          · have := List.mem_singleton.mp h'
            subst this
            simp [hrc2]
        · rcases List.mem_cons.mp h with h' | h'
          · subst h'
            simp [execute_sql_rc, hrc2]
          · have := List.mem_singleton.mp h'
            subst this
            simp [synthesize_answer_rc, execute_sql_rc, hrc2]
    · rw [runAux_exec_err_eq env f a s2 _ hex]
      refine ⟨by simp, ?_, ?_⟩
      · simp [genCount_append, genCount_cons, genCount_nil, hcnt]
      · intro p hp
        rcases List.mem_append.mp hp with h | h
        · rcases List.mem_append.mp h with h' | h'
          · exact hout p h'
          · have := List.mem_singleton.mp h'
            subst this
            simp [hrc2]
        · rcases List.mem_cons.mp h with h' | h'
          · subst h'
            simp [execute_sql_rc, hrc2]
          · have := List.mem_singleton.mp h'
            subst this
            have h1 := repair_loop_rc_le (execute_sql env a s2)
            rw [execute_sql_rc, hrc2] at h1
            simpa using h1.trans (by omega)

/-- C2: across any single request started from the standard initial
invocation, `repair_count` never exceeds the ceiling 2 at any reachable
point (in fact it never exceeds 1), and the workflow always terminates —
reaching `END` or halting on an escaping exception — with at most
`ceiling + 1 = 3` passes through the `generate_sql` stage (in fact at most
one, since the edge from `repair_loop` back to the generator is
unreachable). -/
theorem c2_repair_count_bounded_and_terminates (env : Env) (q : String) :
    (run env q).1 ≠ Outcome.outOfFuel ∧ genCount (run env q).2 ≤ 3 ∧
      ∀ p ∈ (run env q).2, p.2.repair_count ≤ 2 := by
  unfold run
  have hrc1 : (route_question (initState q)).repair_count = 0 := rfl
  have hacc1 : ∀ p ∈ [(Node.route_q, route_question (initState q))], p.2.repair_count ≤ 2 := by
    intro p hp
    have := List.mem_singleton.mp hp
    subst this
    simp [hrc1]
  rcases route_question_route_cases (initState q) with hr | hr | hr
  · rw [show (10 : Nat) = 9 + 1 from rfl,
      runAux_route_ok_eq env 9 0 (initState q) [] Node.gen (nextAfterRoute_sql _ hr)]
    rw [List.nil_append]
    exact c2_tail_gen env 5 0 _ _ hrc1 hacc1 rfl
  · rw [show (10 : Nat) = 9 + 1 from rfl,
      runAux_route_ok_eq env 9 0 (initState q) [] Node.retrieve_d (nextAfterRoute_hybrid _ hr)]
    rw [List.nil_append, show (9 : Nat) = 8 + 1 from rfl, runAux_retrieve_eq]
    rw [nextAfterRetrieve_hybrid _ (by rw [retrieve_docs_route]; exact hr)]
    rw [show (8 : Nat) = 7 + 1 from rfl, runAux_plan_eq]
    refine c2_tail_gen env 3 0 _ _ ?_ ?_ ?_
    · rw [plan_constraints_rc, retrieve_docs_rc, hrc1]
    · intro p hp
      rcases List.mem_append.mp hp with h | h
      · rcases List.mem_append.mp h with h' | h'
        · exact hacc1 p h'
        · have := List.mem_singleton.mp h'
          subst this
          simp [retrieve_docs_rc, hrc1]
      · have := List.mem_singleton.mp h
        subst this
        simp [plan_constraints_rc, retrieve_docs_rc, hrc1]
    · simp [genCount_append, genCount_cons, genCount_nil]
  · rw [show (10 : Nat) = 9 + 1 from rfl,
      runAux_route_ok_eq env 9 0 (initState q) [] Node.retrieve_d (nextAfterRoute_rag _ hr)]
    rw [List.nil_append, show (9 : Nat) = 8 + 1 from rfl, runAux_retrieve_eq]
    rw [nextAfterRetrieve_rag _ (by rw [retrieve_docs_route]; exact hr)]
    rw [show (8 : Nat) = 6 + 2 from rfl, runAux_synth_eq]
    refine ⟨by simp, ?_, ?_⟩
    · simp [genCount_append, genCount_cons, genCount_nil]
    · intro p hp
      rcases List.mem_append.mp hp with h | h
      · rcases List.mem_append.mp h with h' | h'
        · exact hacc1 p h'
        · have := List.mem_singleton.mp h'
          subst this
          simp [retrieve_docs_rc, hrc1]
      · have := List.mem_singleton.mp h
        subst this
        simp [synthesize_answer_rc, retrieve_docs_rc, hrc1]

/-- C2 witness: the bound applied to the concrete QUERY-route request under
the always-succeeding store. -/
theorem c2_witness :
    (run envOk qTop3).1 ≠ Outcome.outOfFuel ∧ genCount (run envOk qTop3).2 ≤ 3 ∧
      ∀ p ∈ (run envOk qTop3).2, p.2.repair_count ≤ 2 :=
  c2_repair_count_bounded_and_terminates envOk qTop3

/-- C1: on the fail-then-succeed scenario the `repair_loop` node does
increment `repair_count` to 1 and clear `error`, but the workflow does NOT
transition back to `generate_sql`: the outgoing conditional edge reads the
just-cleared `error` and routes to `END`, so the generator runs exactly
once and the run finishes with `final_answer` still null instead of
re-executing and succeeding. -/
theorem c1_repair_never_reenters_generator :
    genCount (run envRepair qTop3).2 = 1 ∧
    (run envRepair qTop3).2.map Prod.fst =
      [Node.route_q, Node.gen, Node.exec, Node.repair] ∧
    (finOutState (run envRepair qTop3).1).map
      (fun s => (s.repair_count, s.error, s.final_answer)) = some (1, none, none) := by
  decide

/-- C3: the repair path reaches workflow termination with `final_answer`
still null (the exhausted-repair message is never written because the
repair edge exits to `END` right after clearing the error), while the
success path does terminate with a non-null `final_answer`. -/
theorem c3_termination_with_null_final_answer :
    (finOutState (run envRepair qTop3).1).isSome = true ∧
    (finOutState (run envRepair qTop3).1).map AgentState.final_answer = some none ∧
    (finOutState (run envOk qTop3).1).map (fun s => s.final_answer.isSome) = some true := by
  decide

/-- C4 counterexample: `execute_query` raises to its caller both when
`sqlite3.connect` fails (the connect call precedes the `try` block) and
when a successfully executed statement returns no result set
(`cursor.description` is `None`, giving an uncaught `TypeError`). -/
theorem c4_counterexample_raises :
    execute_query storeConnFail "SELECT CompanyName, Country FROM Customers LIMIT 3;" =
      Except.error (PyExc.sqliteErr "unable to open database file") ∧
    execute_query storeDdl "CREATE TABLE t(x INTEGER);" = Except.error PyExc.typeErr :=
  ⟨rfl, rfl⟩

/-- C4 amended: failures raised by statement execution (all `sqlite3.Error`
cases: malformed query, constraint violation) are captured into the `error`
field with empty `columns` and `rows` — and whenever the returned `error`
is non-null, `columns` and `rows` are both empty — but a connection failure
raised by `sqlite3.connect` and the no-result-set `TypeError` propagate to
the caller. -/
theorem c4_amended_capture (store : Store) (q : String) :
    (∀ r, execute_query store q = Except.ok r → r.error ≠ none →
      r.columns = [] ∧ r.rows = []) ∧
    (store.connectErr = none → ∀ e, store.runStmt q = Except.error e →
      execute_query store q = Except.ok { columns := [], rows := [], error := some e }) := by
  constructor
  · intro r hr herr
    unfold execute_query at hr
    cases hc : store.connectErr with
    | some e =>
      rw [hc] at hr
      exact absurd hr (by simp)
    | none =>
      rw [hc] at hr
      dsimp only at hr
      cases hrun : store.runStmt q with
      | error e =>
        rw [hrun] at hr
        dsimp only at hr
        cases hr
        exact ⟨rfl, rfl⟩
      | ok out =>
        rw [hrun] at hr
        dsimp only at hr
        cases hd : out.description with
        | none =>
          rw [hd] at hr
          exact absurd hr (by simp)
        | some cols =>
          rw [hd] at hr
          dsimp only at hr
          cases hr
          exact absurd rfl herr
  · intro hc e he
    unfold execute_query
    rw [hc, he]

/-- C4 witness: the amended capture clause applied to a statement-level
failure on a healthy connection. -/
theorem c4_amended_witness :
    storeStmtFail.connectErr = none ∧
    execute_query storeStmtFail "SELECT 1;" =
      Except.ok { columns := [], rows := [], error := some "no such table: Products" } :=
  ⟨rfl, (c4_amended_capture storeStmtFail "SELECT 1;").2 rfl "no such table: Products" rfl⟩

/-- C5 counterexample: the Beverages-revenue question is routed `hybrid`,
`plan_constraints` supplies no constraints for it, and `generate_sql`
raises a `KeyError` that escapes the workflow; no state along the run ever
has a non-null `error` field, so the failure never reaches the repair
loop. -/
theorem c5_counterexample_generation_failure_escapes :
    (run envOk qBeverages).1 = Outcome.raised "KeyError: start_date" ∧
    ((run envOk qBeverages).2.all (fun p => p.2.error.isNone)) = true := by
  decide

/-- C5 amended: `generate_sql` never records a failure in the context
`error` field — on success it writes only `sql_query` — and when its SQL
template interpolates constraint keys that are absent (the
Beverages-revenue question on the hybrid route), it raises a `KeyError`
that escapes past the workflow boundary instead. -/
theorem c5_amended_generator_never_sets_error :
    (∀ s s', generate_sql s = Except.ok s' → s' = { s with sql_query := s'.sql_query }) ∧
    (run envOk qBeverages).1 = Outcome.raised "KeyError: start_date" :=
  ⟨fun s s' h => generate_sql_ok_frame s s' h, by decide⟩

/-- C5 witness: the frame clause applied to a concrete unmatched question,
whose generation succeeds with the default query and an unchanged `error`
field. -/
theorem c5_amended_witness :
    ({ initState "hello" with sql_query := "SELECT * FROM Orders LIMIT 1;" } : AgentState) =
      { initState "hello" with sql_query :=
          ({ initState "hello" with
              sql_query := "SELECT * FROM Orders LIMIT 1;" } : AgentState).sql_query } :=
  c5_amended_generator_never_sets_error.1 (initState "hello")
    { initState "hello" with sql_query := "SELECT * FROM Orders LIMIT 1;" } rfl

/-- C6 counterexample: two chunks with equal scores (identical content, a
query term occurring in neither, hence equal BM25 scores) are returned with
the LATER insertion position first, contradicting the claimed
earlier-first tie-break.  On a two-element score array numpy's default
argsort is a stable insertion sort, so the model's tie order is the
program's actual behaviour here: ascending argsort yields `[0, 1]` and the
`[::-1]` reversal emits position 1 before position 0. -/
theorem c6_counterexample_ties_reversed :
    retrieve (fun _ _ => 0) (build [("f", "a\n\na")]) "x" 2 =
      [{ id := "f::chunk1", content := "a", score := 0 },
       { id := "f::chunk0", content := "a", score := 0 }] ∧
    (build [("f", "a\n\na")]).documents.map Chunk.id = ["f::chunk0", "f::chunk1"] ∧
    retrieve (fun _ _ => 0) (build [("f", "a\n\na")]) "x" 2 ≠
      [{ id := "f::chunk0", content := "a", score := 0 },
       { id := "f::chunk1", content := "a", score := 0 }] := by
  decide

/-- C6 amended: the slice-and-reverse `argsort()[-k:][::-1]` of ANY index
sequence meeting numpy's argsort contract (a permutation of the positions
in non-decreasing score order — stability deliberately not assumed) is a
top `min k n` selection in non-increasing score order, with every selected
position scoring at least as high as every non-selected one; consequently
`retrieve` on every non-empty built index with `k ≥ 1` returns `min k n`
chunks forming such a top-`k` by BM25 score.  No tie-break direction is
claimed: the counterexample shows the earlier-first tie-break false, and
numpy's default sort guarantees no direction at all on larger arrays. -/
theorem c6_amended_topk_by_score :
    (∀ (scores : List ℚ) (idxs : List Nat) (k : Nat), 1 ≤ k →
      isAscSortOfScores scores idxs →
      ((pySliceLastK k idxs).reverse).length = min k scores.length ∧
        topKByScore scores ((pySliceLastK k idxs).reverse)) ∧
    (∀ (files : List (String × String)) (scorer : List String → String → ℚ)
      (query : String) (k : Nat), 1 ≤ k → (build files).documents ≠ [] →
      retrieveSpecTopK scorer files query k) := by
  constructor
  · intro scores idxs k hk h
    exact topK_of_ascSort scores idxs k hk h
  · intro files scorer query k hk hne
    unfold retrieveSpecTopK
    have hbm : (build files).bm25 = true := by
      rw [build_bm25_eq]
      cases hdoc : (build files).documents with
      | nil => exact absurd hdoc hne
      | cons a l => simp
    have hslen : (scoresOf scorer (build files) query).length =
        (build files).documents.length := List.length_map _ _
    have h1 := topK_of_ascSort (scoresOf scorer (build files) query)
      (argsortAsc (scoresOf scorer (build files) query)) k hk
      (argsortAsc_ascSort (scoresOf scorer (build files) query))
    refine ⟨?_, ?_, ?_⟩
    · unfold retrieve
      rw [hbm]
      simp
    · rw [show retrieveIdxs (scoresOf scorer (build files) query) k =
          (pySliceLastK k (argsortAsc (scoresOf scorer (build files) query))).reverse from rfl,
        h1.1, hslen]
    · exact h1.2

/-- C6 witness: the amended contract applied to a concrete sorted index
sequence over a two-element score array, and to a concrete two-chunk index
with `k = 1`. -/
theorem c6_amended_witness :
    ((1 : Nat) ≤ 2 ∧ isAscSortOfScores [0, 0] [0, 1]) ∧
    ((pySliceLastK 2 ([0, 1] : List Nat)).reverse.length = min 2 ([0, 0] : List ℚ).length ∧
      topKByScore [0, 0] (pySliceLastK 2 ([0, 1] : List Nat)).reverse) ∧
    ((1 : Nat) ≤ 1 ∧ (build [("f", "a\n\nb")]).documents ≠ []) ∧
    retrieveSpecTopK (fun _ _ => 0) [("f", "a\n\nb")] "x" 1 :=
  ⟨⟨by decide, ⟨by decide, by decide⟩⟩,
    c6_amended_topk_by_score.1 [0, 0] [0, 1] 2 (by decide) ⟨by decide, by decide⟩,
    ⟨le_refl 1, by decide⟩,
    c6_amended_topk_by_score.2 [("f", "a\n\nb")] (fun _ _ => 0) "x" 1 (le_refl 1) (by decide)⟩

/-- C7 counterexample: on the QUERY-route scenario the run succeeds with
`citations = ["Orders", "Customers"]`, yet the executed top-3 query text
mentions neither `Orders` nor `Customers` — it reads `Products` (and
`Order Details`), and `Products` is absent from the citations.  The node
appends a fixed table-name list instead of the tables actually read. -/
theorem c7_counterexample_fixed_citations :
    (finOutState (run envOk qTop3).1).map AgentState.citations =
      some ["Orders", "Customers"] ∧
    (finOutState (run envOk qTop3).1).map AgentState.sql_query = some sqlTop3 ∧
    strContains sqlTop3 "Customers" = false ∧
    strContains sqlTop3 "Orders" = false ∧
    strContains sqlTop3 "Products" = true ∧
    (finOutState (run envOk qTop3).1).map (fun s => decide ("Products" ∈ s.citations)) =
      some false := by
  decide

/-- C7 amended: after every successful query execution, `execute_sql`
appends the fixed literal list `["Orders", "Customers"]` to the existing
citations, regardless of which tables the executed query reads (the source
marks this as a simplification), and leaves `error` unchanged. -/
theorem c7_amended_fixed_table_names (env : Env) (a : Nat) (s : AgentState)
    (h : truthy (env.execResult a s.sql_query).error = false) :
    (execute_sql env a s).citations = s.citations ++ ["Orders", "Customers"] ∧
    (execute_sql env a s).error = s.error := by
  unfold execute_sql
  dsimp only
  rw [if_neg]
  · exact ⟨rfl, rfl⟩
  · simp [h]

/-- C7 witness: the fixed-citations clause applied to the initial state of
the QUERY-route scenario under the always-succeeding store. -/
theorem c7_amended_witness :
    truthy (envOk.execResult 0 (initState qTop3).sql_query).error = false ∧
    (execute_sql envOk 0 (initState qTop3)).citations =
      (initState qTop3).citations ++ ["Orders", "Customers"] :=
  ⟨rfl, (c7_amended_fixed_table_names envOk 0 (initState qTop3) rfl).1⟩

/-- C8: building the retriever over a corpus that yields zero chunks
produces a valid empty index (no BM25 object, no documents, no error), and
`retrieve` on it returns the empty sequence for every scorer, query and
`k`. -/
theorem c8_empty_index_retrieve_empty (files : List (String × String))
    (h : load_and_chunk_docs files = []) :
    (build files).documents = [] ∧ (build files).bm25 = false ∧
    ∀ scorer query k, retrieve scorer (build files) query k = [] := by
  have hd : (build files).documents = [] := by rw [build_documents_eq, h]
  have hb : (build files).bm25 = false := by rw [build_bm25_eq, hd]; rfl
  refine ⟨hd, hb, ?_⟩
  intro scorer query k
  unfold retrieve
  rw [hb]
  simp

/-- C8 witness: a directory whose only file contains nothing but
whitespace yields zero chunks, and retrieval on the resulting empty index
returns the empty sequence. -/
theorem c8_witness :
    load_and_chunk_docs [("notes", " \n\n\t\n\n")] = [] ∧
    retrieve (fun _ _ => 0) (build [("notes", " \n\n\t\n\n")]) "anything" 5 = [] :=
  ⟨by decide,
    (c8_empty_index_retrieve_empty [("notes", " \n\n\t\n\n")] (by decide)).2.2
      (fun _ _ => 0) "anything" 5⟩

/-- C9: retrieval ranking is deterministic — `retrieve` is a pure function
of the index, query and `k` (no randomness, no hidden state), so any two
calls with the same arguments return identical ordered results. -/
theorem c9_retrieve_deterministic (scorer : List String → String → ℚ) (r : Retriever)
    (q₁ q₂ : String) (k₁ k₂ : Nat) (hq : q₁ = q₂) (hk : k₁ = k₂) :
    retrieve scorer r q₁ k₁ = retrieve scorer r q₂ k₂ := by
  rw [hq, hk]

/-- C9 witness: two identical calls on a concrete index coincide. -/
theorem c9_witness :
    retrieve (fun _ _ => 0) (build [("f", "a\n\nb")]) "b" 3 =
      retrieve (fun _ _ => 0) (build [("f", "a\n\nb")]) "b" 3 :=
  c9_retrieve_deterministic (fun _ _ => 0) (build [("f", "a\n\nb")]) "b" "b" 3 3 rfl rfl

/-- C10: when query execution fails (truthy result error), `execute_sql`
copies the error into the context and leaves `citations` exactly as they
were — table names are appended only on the success branch. -/
theorem c10_failed_execution_preserves_citations (env : Env) (a : Nat) (s : AgentState)
    (h : truthy (env.execResult a s.sql_query).error = true) :
    (execute_sql env a s).citations = s.citations ∧
    (execute_sql env a s).error = (env.execResult a s.sql_query).error := by
  unfold execute_sql
  dsimp only
  rw [if_pos h]
  exact ⟨rfl, rfl⟩

/-- C10 witness: the frame applied to the first (failing) attempt of the
transient store. -/
theorem c10_witness :
    truthy (envRepair.execResult 0 (initState qTop3).sql_query).error = true ∧
    (execute_sql envRepair 0 (initState qTop3)).citations = (initState qTop3).citations :=
  ⟨rfl, (c10_failed_execution_preserves_citations envRepair 0 (initState qTop3) rfl).1⟩

end Spec2Proof
